import Mathlib

/-!
Shallow embedding of the Waybar temperature module
(src/modules/temperature.cpp, include/modules/temperature.hpp).

Modelling conventions:
  * C++ floating-point arithmetic (float/double) is modelled by exact
    rational arithmetic over ℚ.  The literals 1.8 and 273.15 become 9/5
    and 27315/100.  At the scales appearing in the code (integer readings
    below 2^16 combined with one multiplication and one addition) the
    double rounding error never crosses a .5 rounding boundary, because
    the exact fractional parts lie in {0, .15, .2, .4, .6, .8}.
  * std::round (round half away from zero) is `roundHalfAway`.
  * Machine integers are ℤ / ℕ with explicit reduction modulo 2^16 where
    the code stores a value in a uint16_t.
  * std::strtol (base 10, no endptr, no errno check) is `strtol`:
    leading whitespace skipped, optional sign, longest digit prefix,
    0 when no digits, clamped to the long range.
  * The C++ exceptions thrown by the module carry fixed message shapes
    ("Can not open <path>" / "Can not read from <path>" in the source,
    spelled with an apostrophe there); we represent them by an inductive
    error type with the path as payload, which preserves exactly the
    information content of the message.
  * The filesystem and the sysctl interface are explicit parameters.
-/

namespace Waybar

/-- The sensor kinds of the module (enum SensorType in temperature.hpp). -/
inductive SensorType
  | TEMPERATURE
  | FAN
  | POWER
deriving DecidableEq, Repr

open SensorType

/-- The configuration keys the module consumes, with the JSON dynamic
typing resolved: a key that is absent or of the wrong JSON type is
`none` (for `hwmon-path` and `hwmon-path-abs` a scalar string is the
one-element list, matching `traverseAsArray`).  `format` is the base
format resolved by the ALabel base class: the configured "format" key
or the built-in default. -/
structure Config where
  type : Option String := none
  hwmonPath : List String := []
  hwmonPathAbs : List String := []
  inputFilename : Option String := none
  thermalZone : Option Int := none
  warningThreshold : Option Int := none
  criticalThreshold : Option Int := none
  format : String := "{temperatureC}°C"
  formatCritical : Option String := none
  formatWarning : Option String := none
deriving DecidableEq, Repr

/-- An explicit filesystem model: which paths exist, which directories
exist with their immediate entry filenames, which paths an ifstream can
open, and which opened streams are in a good state. -/
structure FS where
  existing : List String := []
  dirs : List (String × List String) := []
  openable : List String := []
  goodStream : List String := []
deriving DecidableEq, Repr

def FS.pathExists (fs : FS) (p : String) : Bool := fs.existing.contains p

def FS.isDirectory (fs : FS) (p : String) : Bool :=
  (fs.dirs.lookup p).isSome

def FS.entries (fs : FS) (p : String) : List String :=
  (fs.dirs.lookup p).getD []

def FS.canOpen (fs : FS) (p : String) : Bool := fs.openable.contains p

def FS.good (fs : FS) (p : String) : Bool := fs.goodStream.contains p

/-- Character class of isspace in the C locale. -/
def isSpaceChar (c : Char) : Bool :=
  c = ' ' || c = '\t' || c = '\n' || c = '\x0b' || c = '\x0c' || c = '\r'

/-- Accumulate the longest leading run of decimal digits. -/
def digitsVal : List Char → Nat → Nat
  | c :: cs, acc =>
      if c.isDigit then digitsVal cs (acc * 10 + (c.toNat - 48)) else acc
  | [], acc => acc

/-- The sign-and-digits part of strtol, applied after whitespace
skipping: an optional single sign followed by the longest digit prefix;
no digits means 0. -/
def strtolCore (cs : List Char) : Int :=
  match cs with
  | [] => 0
  | c :: rest =>
      if c = '-' then -(digitsVal rest 0 : Int)
      else if c = '+' then (digitsVal rest 0 : Int)
      else (digitsVal cs 0 : Int)

/-- std::strtol with base 10 and a null endptr, as called by
getReadings: skip spaces, optional single sign, longest digit prefix;
no digits means 0; out-of-range values clamp to LONG_MIN/LONG_MAX
(64-bit long). -/
def strtol (s : String) : Int :=
  max (-(2 ^ 63)) (min (2 ^ 63 - 1) (strtolCore (s.data.dropWhile isSpaceChar)))

/-- std::round: round to nearest, halves away from zero. -/
def roundHalfAway (q : ℚ) : Int :=
  if 0 ≤ q then ⌊q + 1 / 2⌋ else -⌊-q + 1 / 2⌋

/-- Conversion applied to the parsed raw value in
Temperature::getReadings (the non-BSD branch): milli-degrees for
TEMPERATURE, micro-watts for POWER, the raw value for FAN (the FAN case
falls through to the final return). -/
def convertReading (st : SensorType) (reading : Int) : ℚ :=
  match st with
  | TEMPERATURE => (reading : ℚ) / 1000
  | FAN => (reading : ℚ)
  | POWER => (reading : ℚ) / 1000000

/-- Per-tick read errors of Temperature::getReadings (non-BSD):
the reopened source failed to open, or the stream was not good before
getline.  Parsing never fails: strtol reports no error. -/
inductive TickError
  | cantOpen (path : String)
  | cantRead (path : String)
deriving DecidableEq, Repr

/-- Temperature::getReadings, non-BSD branch, as a function of the
resolved path, the filesystem and the line stored at the path.
It opens the path, reads one line if the stream is good, and converts
the strtol of the line.  Malformed content is not detected. -/
def getReadings (fs : FS) (lineAt : String → String) (st : SensorType)
    (path : String) : Except TickError ℚ :=
  if fs.canOpen path = false then
    .error (.cantOpen path)
  else if fs.good path = false then
    .error (.cantRead path)
  else
    .ok (convertReading st (strtol (lineAt path)))

/-- Sensor type parsing in the constructor (non-BSD branch): three
successive equality checks against the "type" string; a missing key or
an unrecognized string leaves the default TEMPERATURE. -/
def parseSensorType (cfg : Config) : SensorType :=
  match cfg.type with
  | some "temperature" => TEMPERATURE
  | some "fan" => FAN
  | some "power" => POWER
  | _ => TEMPERATURE

/-- The default thermal zone path used as the last resolution step for
the TEMPERATURE kind. -/
def thermalZonePath (zone : Int) : String :=
  "/sys/class/thermal/thermal_zone" ++ toString zone ++ "/temp"

/-- Step 1 of source resolution: the first configured hwmon-path
candidate that exists on the filesystem (traverseAsArray with an
existence check and break on first success). -/
def resolveHwmonPath (fs : FS) (candidates : List String) : Option String :=
  candidates.find? fs.pathExists

/-- Step 2 of source resolution (only reached with file_path_ still
empty and input-filename configured): scan each configured
hwmon-path-abs directory for an entry whose filename starts with
"hwmon" and append the configured input-filename. -/
def resolveHwmonPathAbs (fs : FS) (dirCandidates : List String)
    (inputFilename : String) : Option String :=
  dirCandidates.findSome? fun d =>
    if fs.isDirectory d then
      (fs.entries d).findSome? fun e =>
        if e.startsWith "hwmon" then
          some (d ++ "/" ++ e ++ "/" ++ inputFilename)
        else none
    else none

/-- The full file_path_ resolution of the constructor (non-BSD): direct
hwmon-path candidates, then the hwmon-path-abs scan, then for the
TEMPERATURE kind the thermal-zone fallback; each later step is guarded
by file_path_.empty().  When nothing resolves, file_path_ stays the
empty string. -/
def resolveFilePath (fs : FS) (cfg : Config) (st : SensorType) : String :=
  match resolveHwmonPath fs cfg.hwmonPath with
  | some p => p
  | none =>
    let step2 : Option String :=
      match cfg.inputFilename with
      | some fn => resolveHwmonPathAbs fs cfg.hwmonPathAbs fn
      | none => none
    match step2 with
    | some p => p
    | none =>
      if st = TEMPERATURE then thermalZonePath (cfg.thermalZone.getD 0)
      else ""

/-- Construction-time errors of the non-BSD constructor.  In the source
both are std::runtime_error with messages "Can not open <path>" and
"Can not read from <path>" (the source spells the contraction with an
apostrophe); the constructor of the error carries the full information
of the message. -/
inductive ConstructionError
  | cantOpen (path : String)
  | cantRead (path : String)
deriving DecidableEq, Repr

/-- Constructor validation of the resolved path: open it; if the open
fails, throw the cantOpen error; if the opened stream is not good,
throw the cantRead error.  No read is attempted and no existence check
is made here. -/
def validatePath (fs : FS) (p : String) : Except ConstructionError Unit :=
  if fs.canOpen p = false then .error (.cantOpen p)
  else if fs.good p = false then .error (.cantRead p)
  else .ok ()

/-- Temperature::Temperature on the non-BSD platform: parse the sensor
type, resolve file_path_, validate it; on success the instance holds
the type and the path. -/
def construct (fs : FS) (cfg : Config) :
    Except ConstructionError (SensorType × String) :=
  let st := parseSensorType cfg
  let p := resolveFilePath fs cfg st
  (validatePath fs p).map fun _ => (st, p)

/-- Temperature::Temperature on the FreeBSD platform: the whole
configuration-parsing / path-resolution / validation block is compiled
out (the FreeBSD branch of the preprocessor conditional is empty), so
the sensor type keeps its member-initializer default TEMPERATURE and
construction always succeeds. -/
def constructBSD (_cfg : Config) : Except ConstructionError SensorType :=
  Except.ok TEMPERATURE

/-- Per-tick errors of the FreeBSD getReadings. -/
inductive BSDTickError
  | unsupportedSensor
  | sysctlFailed (zone : Int)
deriving DecidableEq, Repr

/-- Temperature::getReadings on the FreeBSD platform: a non-temperature
sensor type throws immediately; otherwise the sysctl query for the
configured zone (dev.cpu first, then hw.acpi.thermal) either yields the
raw value in tenths of kelvin, converted by (raw - 2732) / 10, or
throws.  `sysctl` is the platform query: its result for the zone, if
any. -/
def getReadingsBSD (cfg : Config) (st : SensorType)
    (sysctl : Int → Option Int) : Except BSDTickError ℚ :=
  if st ≠ TEMPERATURE then .error .unsupportedSensor
  else
    let zone := cfg.thermalZone.getD 0
    match sysctl zone with
    | some temp => .ok (((temp : ℚ) - 2732) / 10)
    | none => .error (.sysctlFailed zone)

/-- The first statement of Temperature::update:
`uint16_t readings = std::round(getReadings())` — the rounded converted
reading reduced into a uint16_t.  (Conversion of an out-of-range
floating value to uint16_t is modelled as reduction modulo 2^16, the
behavior of the generated code on the supported targets.) -/
def readingsOfRaw (st : SensorType) (raw : Int) : Nat :=
  ((roundHalfAway (convertReading st raw)) % 65536).toNat

/-- Temperature::isWarning: the warning-threshold key is an int and the
uint16 reading (promoted to int) is ≥ it. -/
def isWarning (cfg : Config) (temperature_c : Nat) : Bool :=
  match cfg.warningThreshold with
  | some w => decide ((temperature_c : Int) ≥ w)
  | none => false

/-- Temperature::isCritical: the critical-threshold key is an int and
the uint16 reading (promoted to int) is ≥ it. -/
def isCritical (cfg : Config) (temperature_c : Nat) : Bool :=
  match cfg.criticalThreshold with
  | some c => decide ((temperature_c : Int) ≥ c)
  | none => false

/-- The two style classes the module adds to / removes from the label
style context. -/
structure StyleTags where
  critical : Bool
  warning : Bool
deriving DecidableEq, Repr

/-- The format-selection and style-class block of Temperature::update:
if critical, take format-critical (when configured) and add the
critical class — the warning class is left as it was; otherwise remove
the critical class, and if warning, take format-warning (when
configured) and add the warning class, else remove the warning class. -/
def updateFormatAndStyle (cfg : Config) (readings : Nat)
    (prev : StyleTags) : String × StyleTags :=
  if isCritical cfg readings then
    (cfg.formatCritical.getD cfg.format, { prev with critical := true })
  else
    let tags : StyleTags := { prev with critical := false }
    if isWarning cfg readings then
      (cfg.formatWarning.getD cfg.format, { tags with warning := true })
    else
      (cfg.format, { tags with warning := false })

/-- The six named values substituted into the selected format (and the
tooltip) by Temperature::update.  All are uint16_t locals initialized
to zero; only the ones of the active sensor kind are filled in.
temperature_f and temperature_k are computed from the already reduced
and rounded uint16 `readings` and stored back into uint16_t. -/
structure RenderValues where
  temperature_c : Nat
  temperature_f : Nat
  temperature_k : Nat
  fan_speed : Nat
  power : Nat
deriving DecidableEq, Repr

def renderValues (st : SensorType) (readings : Nat) : RenderValues :=
  match st with
  | TEMPERATURE =>
      { temperature_c := readings
        temperature_f :=
          ((roundHalfAway ((readings : ℚ) * (9 / 5) + 32)) % 65536).toNat
        temperature_k :=
          ((roundHalfAway ((readings : ℚ) + 27315 / 100)) % 65536).toNat
        fan_speed := 0
        power := 0 }
  | FAN =>
      { temperature_c := 0, temperature_f := 0, temperature_k := 0
        fan_speed := readings, power := 0 }
  | POWER =>
      { temperature_c := 0, temperature_f := 0, temperature_k := 0
        fan_speed := 0, power := readings }

/-- The observable result of one Temperature::update tick: the style
classes after the tick, whether the event box is shown, and, when it
is, the selected format together with the substituted values (the
inputs of the fmt::format call that produces the label markup). -/
structure UpdateResult where
  tags : StyleTags
  shown : Bool
  rendered : Option (String × RenderValues)
deriving DecidableEq, Repr

/-- Temperature::update as a function of the configuration, the sensor
type, the raw parsed reading of this tick and the style classes left by
the previous tick: round and reduce the reading, classify, select
format and update style classes, then hide the event box and return if
the selected format is empty, else show it and render. -/
def update (cfg : Config) (st : SensorType) (raw : Int)
    (prev : StyleTags) : UpdateResult :=
  let readings := readingsOfRaw st raw
  let fs := updateFormatAndStyle cfg readings prev
  if fs.1 = "" then
    { tags := fs.2, shown := false, rendered := none }
  else
    { tags := fs.2, shown := true
      rendered := some (fs.1, renderValues st readings) }

/-! Supporting lemmas. -/

theorem roundHalfAway_nonneg {q : ℚ} (h : 0 ≤ q) : 0 ≤ roundHalfAway q := by
  rw [roundHalfAway, if_pos h]
  refine Int.le_floor.mpr ?_
  push_cast
  linarith

theorem roundHalfAway_le {q : ℚ} {b : Int} (h0 : 0 ≤ q) (h : q ≤ (b : ℚ)) :
    roundHalfAway q ≤ b := by
  rw [roundHalfAway, if_pos h0]
  refine Int.le_of_lt_add_one (Int.floor_lt.mpr ?_)
  push_cast
  linarith

theorem readingsOfRaw_eq_toNat (st : SensorType) (r : Int)
    (h0 : 0 ≤ roundHalfAway (convertReading st r))
    (h1 : roundHalfAway (convertReading st r) < 65536) :
    readingsOfRaw st r = (roundHalfAway (convertReading st r)).toNat := by
  unfold readingsOfRaw
  rw [Int.emod_eq_of_lt h0 h1]

theorem update_tags (cfg : Config) (st : SensorType) (raw : Int)
    (prev : StyleTags) :
    (update cfg st raw prev).tags
      = (updateFormatAndStyle cfg (readingsOfRaw st raw) prev).2 := by
  simp only [update]
  split <;> rfl

theorem digitsVal_eq_zero (cs : List Char)
    (h : ∀ c ∈ cs, c.isDigit = false) : digitsVal cs 0 = 0 := by
  cases cs with
  | nil => rfl
  | cons c rest =>
      unfold digitsVal
      rw [h c (List.mem_cons_self c rest)]
      simp

theorem strtolCore_no_digits (cs : List Char)
    (h : ∀ c ∈ cs, c.isDigit = false) : strtolCore cs = 0 := by
  cases cs with
  | nil => rfl
  | cons c rest =>
      have hd : digitsVal rest 0 = 0 :=
        digitsVal_eq_zero rest fun x hx => h x (List.mem_cons_of_mem c hx)
      have hd2 : digitsVal (c :: rest) 0 = 0 := digitsVal_eq_zero _ h
      unfold strtolCore
      by_cases h1 : c = '-' <;> by_cases h2 : c = '+' <;>
        simp [h1, h2, hd, hd2]

theorem strtol_no_digits (s : String)
    (h : ∀ c ∈ s.data, c.isDigit = false) : strtol s = 0 := by
  have hsub : ∀ c ∈ s.data.dropWhile isSpaceChar, c.isDigit = false := by
    intro c hc
    exact h c ((s.data.dropWhile_sublist isSpaceChar).mem hc)
  unfold strtol
  rw [strtolCore_no_digits _ hsub]
  norm_num

theorem convertReading_zero (st : SensorType) : convertReading st 0 = 0 := by
  cases st <;> simp [convertReading]

/-- C2: for a tick where both thresholds are configured and the rounded
reading meets or exceeds both, the critical branch is taken: the
critical format is selected and the critical style class is set; the
warning format is not selected and the warning class is not added by
this tick. -/
theorem critical_takes_precedence (cfg : Config) (t : Nat) (prev : StyleTags)
    (w c : Int) (fc : String)
    (hw : cfg.warningThreshold = some w) (hc : cfg.criticalThreshold = some c)
    (hfc : cfg.formatCritical = some fc)
    (hwt : (t : Int) ≥ w) (hct : (t : Int) ≥ c) :
    updateFormatAndStyle cfg t prev
      = (fc, { critical := true, warning := prev.warning }) := by
  have hcrit : isCritical cfg t = true := by
    unfold isCritical
    rw [hc]
    exact decide_eq_true hct
  simp [updateFormatAndStyle, hcrit, hfc]

theorem critical_takes_precedence_witness :
    updateFormatAndStyle
        { warningThreshold := some 60, criticalThreshold := some 80
          formatCritical := some "CRIT", formatWarning := some "WARN" }
        85 ⟨false, false⟩
      = ("CRIT", ⟨true, false⟩) :=
  critical_takes_precedence _ 85 _ 60 80 "CRIT" rfl rfl rfl (by decide)
    (by decide)

/-- C5: whenever some configured hwmon-path candidate exists on the
filesystem, the resolved source is the first existing candidate — a
configured hwmon-path that exists — so neither the hwmon-path-abs scan
nor the thermal-zone fallback contributes the source. -/
theorem hwmon_path_first_wins (fs : FS) (cfg : Config) (st : SensorType)
    (p : String) (h : cfg.hwmonPath.find? fs.pathExists = some p) :
    resolveFilePath fs cfg st = p ∧ p ∈ cfg.hwmonPath
      ∧ fs.pathExists p = true := by
  refine ⟨?_, List.mem_of_find?_eq_some h, List.find?_some h⟩
  unfold resolveFilePath resolveHwmonPath
  rw [h]

theorem hwmon_path_first_wins_witness :
    resolveFilePath { existing := ["/hw1"] }
        { hwmonPath := ["/hw0", "/hw1"], thermalZone := some 3 } TEMPERATURE
      = "/hw1" :=
  (hwmon_path_first_wins _ _ _ "/hw1" (by rfl)).1

/-- C6 counterexample: on the FreeBSD platform, configuring the fan
sensor kind does not make construction fail — the constructor ignores
the type key entirely and succeeds with the default TEMPERATURE kind,
contrary to the claim that a non-temperature kind is fatal at
construction time. -/
theorem bsd_construct_fan_ok :
    constructBSD { type := some "fan" } = Except.ok TEMPERATURE := rfl

/-- C6 amended: on the FreeBSD platform construction always succeeds
with the sensor kind left at TEMPERATURE (the type configuration is
never parsed there), and the unsupported-kind check lives in the
per-tick read, which errors when the kind is not TEMPERATURE. -/
theorem bsd_kind_check_at_tick (cfg : Config) (st : SensorType)
    (sysctl : Int → Option Int) (h : st ≠ TEMPERATURE) :
    constructBSD cfg = Except.ok TEMPERATURE
      ∧ getReadingsBSD cfg st sysctl
          = Except.error BSDTickError.unsupportedSensor := by
  refine ⟨rfl, ?_⟩
  unfold getReadingsBSD
  rw [if_pos h]

theorem bsd_kind_check_at_tick_witness :
    constructBSD { type := some "fan" } = Except.ok TEMPERATURE
      ∧ getReadingsBSD { type := some "fan" } FAN (fun _ => some 3000)
          = Except.error BSDTickError.unsupportedSensor :=
  bsd_kind_check_at_tick _ FAN _ (by decide)

/-- C8 counterexample: a filesystem where no path exists at all and one
where the resolved thermal-zone path exists but cannot be opened
produce the same construction error, so the missing-source and
unopenable-source failure reasons are not distinguishable. -/
theorem construct_missing_vs_unopenable_same_error :
    construct {} {}
        = Except.error
            (ConstructionError.cantOpen "/sys/class/thermal/thermal_zone0/temp")
      ∧ construct { existing := ["/sys/class/thermal/thermal_zone0/temp"] } {}
          = Except.error
              (ConstructionError.cantOpen "/sys/class/thermal/thermal_zone0/temp")
      ∧ FS.pathExists {} "/sys/class/thermal/thermal_zone0/temp" = false
      ∧ FS.pathExists { existing := ["/sys/class/thermal/thermal_zone0/temp"] }
          "/sys/class/thermal/thermal_zone0/temp" = true :=
  ⟨rfl, rfl, rfl, rfl⟩

/-- C8 amended: construction validation distinguishes exactly two
failure reasons — the resolved path failed to open, and the path opened
with a bad stream state — and they yield distinct errors; whether the
path exists is never consulted, so a missing path and an
existing-but-unopenable path fail identically. -/
theorem construct_error_kinds (fs1 fs2 : FS) (p : String)
    (h1 : fs1.canOpen p = false)
    (h2 : fs2.canOpen p = true) (h3 : fs2.good p = false) :
    validatePath fs1 p = Except.error (ConstructionError.cantOpen p)
      ∧ validatePath fs2 p = Except.error (ConstructionError.cantRead p)
      ∧ validatePath fs1 p ≠ validatePath fs2 p := by
  have e1 : validatePath fs1 p = Except.error (ConstructionError.cantOpen p) := by
    unfold validatePath
    rw [h1]
    simp
  have e2 : validatePath fs2 p = Except.error (ConstructionError.cantRead p) := by
    unfold validatePath
    rw [h2, h3]
    simp
  refine ⟨e1, e2, ?_⟩
  rw [e1, e2]
  intro hEq
  simp at hEq

theorem construct_error_kinds_witness :
    validatePath {} "/p" = Except.error (ConstructionError.cantOpen "/p")
      ∧ validatePath { openable := ["/p"] } "/p"
          = Except.error (ConstructionError.cantRead "/p")
      ∧ validatePath {} "/p" ≠ validatePath { openable := ["/p"] } "/p" :=
  construct_error_kinds {} { openable := ["/p"] } "/p" rfl rfl rfl

/-- C9 counterexample: a raw power reading of 999999 micro-watts is
displayed as 1 W, not 0 W: the implementation rounds to nearest (half
away from zero), so 0.999999 rounds up. -/
theorem power_999999_rounds_to_one :
    (renderValues POWER (readingsOfRaw POWER 999999)).power = 1
      ∧ (renderValues POWER (readingsOfRaw POWER 999999)).power ≠ 0 := by
  have h : readingsOfRaw POWER 999999 = 1 := by
    unfold readingsOfRaw convertReading
    norm_num [roundHalfAway]
  rw [show (renderValues POWER (readingsOfRaw POWER 999999)).power
      = readingsOfRaw POWER 999999 from rfl, h]
  exact ⟨rfl, by decide⟩

/-- C9 amended: the displayed Watts value is the raw micro-watt reading
divided by 1000000 and rounded to nearest with halves away from zero
(whenever that rounded value fits in the uint16 storage). -/
theorem power_rounding (r : Int)
    (h0 : 0 ≤ roundHalfAway ((r : ℚ) / 1000000))
    (h1 : roundHalfAway ((r : ℚ) / 1000000) < 65536) :
    (renderValues POWER (readingsOfRaw POWER r)).power
      = (roundHalfAway ((r : ℚ) / 1000000)).toNat := by
  have e := readingsOfRaw_eq_toNat POWER r h0 h1
  simpa [renderValues] using e

theorem power_rounding_witness :
    (renderValues POWER (readingsOfRaw POWER 1250000)).power = 1 := by
  have h := power_rounding 1250000 (by norm_num [roundHalfAway])
    (by norm_num [roundHalfAway])
  rw [h]
  norm_num [roundHalfAway]

/-- C10: the value classified against the thresholds and substituted
into the templates is the rounded converted reading reduced modulo
2^16 (uint16_t storage), so whenever the true rounded reading is
negative or at least 65536 the stored value differs from it. -/
theorem reading_stored_uint16 (st : SensorType) (r : Int) :
    (readingsOfRaw st r : Int) = roundHalfAway (convertReading st r) % 65536
      ∧ ((roundHalfAway (convertReading st r) < 0
            ∨ 65536 ≤ roundHalfAway (convertReading st r))
          → (readingsOfRaw st r : Int) ≠ roundHalfAway (convertReading st r)) := by
  have hnn : 0 ≤ roundHalfAway (convertReading st r) % 65536 :=
    Int.emod_nonneg _ (by decide)
  have hlt : roundHalfAway (convertReading st r) % 65536 < 65536 :=
    Int.emod_lt_of_pos _ (by decide)
  have e : (readingsOfRaw st r : Int)
      = roundHalfAway (convertReading st r) % 65536 := by
    unfold readingsOfRaw
    exact Int.toNat_of_nonneg hnn
  refine ⟨e, fun h hEq => ?_⟩
  rw [e] at hEq
  rcases h with h | h
  · rw [hEq] at hnn
    linarith
  · rw [hEq] at hlt
    linarith

theorem reading_stored_uint16_witness :
    readingsOfRaw TEMPERATURE (-5000) = 65531
      ∧ (readingsOfRaw TEMPERATURE (-5000) : Int)
          ≠ roundHalfAway (convertReading TEMPERATURE (-5000)) := by
  constructor
  · unfold readingsOfRaw convertReading
    norm_num [roundHalfAway]
    all_goals decide
  · exact (reading_stored_uint16 TEMPERATURE (-5000)).2
      (Or.inl (by norm_num [roundHalfAway, convertReading]))

/-- C1 counterexample: at raw reading 45500 milli-Celsius the rendered
Fahrenheit value is 115, while rounding the unrounded Celsius value
45.5 of the claim gives round(45.5 × 1.8 + 32) = 114 — the code chains
the already-rounded Celsius integer (46) into the Fahrenheit
conversion. -/
theorem fahrenheit_not_from_unrounded :
    (renderValues TEMPERATURE (readingsOfRaw TEMPERATURE 45500)).temperature_f
        = 115
      ∧ (roundHalfAway ((45500 : ℚ) / 1000 * (9 / 5) + 32)).toNat = 114
      ∧ (renderValues TEMPERATURE (readingsOfRaw TEMPERATURE 45500)).temperature_f
          ≠ (roundHalfAway ((45500 : ℚ) / 1000 * (9 / 5) + 32)).toNat := by
  have h1 : readingsOfRaw TEMPERATURE 45500 = 46 := by
    unfold readingsOfRaw convertReading
    norm_num [roundHalfAway]
    decide
  have h2 : (renderValues TEMPERATURE 46).temperature_f = 115 := by
    simp only [renderValues]
    norm_num [roundHalfAway]
    decide
  have h3 : (roundHalfAway ((45500 : ℚ) / 1000 * (9 / 5) + 32)).toNat = 114 := by
    norm_num [roundHalfAway]
    decide
  refine ⟨by rw [h1]; exact h2, h3, ?_⟩
  rw [h1, h2, h3]
  decide

/-- C1 amended: Celsius = round(r / 1000); Fahrenheit and Kelvin are
rounded from the already-rounded integer Celsius value, not from the
unrounded floating Celsius: Fahrenheit = round(C × 1.8 + 32) and
Kelvin = round(C + 273.15) with C = round(r / 1000) (stated for raw
readings whose derived values fit the uint16 storage). -/
theorem derived_units_chain_rounded (r : Int) (hr0 : 0 ≤ r)
    (hr1 : r ≤ 36000000) :
    (renderValues TEMPERATURE (readingsOfRaw TEMPERATURE r)).temperature_c
        = (roundHalfAway ((r : ℚ) / 1000)).toNat
      ∧ (renderValues TEMPERATURE (readingsOfRaw TEMPERATURE r)).temperature_f
        = (roundHalfAway
            (((roundHalfAway ((r : ℚ) / 1000) : Int) : ℚ) * (9 / 5) + 32)).toNat
      ∧ (renderValues TEMPERATURE (readingsOfRaw TEMPERATURE r)).temperature_k
        = (roundHalfAway
            (((roundHalfAway ((r : ℚ) / 1000) : Int) : ℚ) + 27315 / 100)).toNat := by
  have hq0 : (0 : ℚ) ≤ (r : ℚ) / 1000 := by
    have hr : (0 : ℚ) ≤ (r : ℚ) := by exact_mod_cast hr0
    exact div_nonneg hr (by norm_num)
  have hqle : (r : ℚ) / 1000 ≤ ((36000 : Int) : ℚ) := by
    rw [div_le_iff₀ (by norm_num : (0 : ℚ) < 1000)]
    have hr : (r : ℚ) ≤ 36000000 := by exact_mod_cast hr1
    push_cast
    linarith
  have hC0 : 0 ≤ roundHalfAway ((r : ℚ) / 1000) := roundHalfAway_nonneg hq0
  have hCle : roundHalfAway ((r : ℚ) / 1000) ≤ 36000 := roundHalfAway_le hq0 hqle
  have hread : readingsOfRaw TEMPERATURE r
      = (roundHalfAway ((r : ℚ) / 1000)).toNat :=
    readingsOfRaw_eq_toNat TEMPERATURE r hC0
      (lt_of_le_of_lt hCle (by norm_num))
  have hCq0 : (0 : ℚ) ≤ ((roundHalfAway ((r : ℚ) / 1000) : Int) : ℚ) := by
    exact_mod_cast hC0
  have hCqle : ((roundHalfAway ((r : ℚ) / 1000) : Int) : ℚ) ≤ 36000 := by
    exact_mod_cast hCle
  have hcast : (((roundHalfAway ((r : ℚ) / 1000)).toNat : ℕ) : ℚ)
      = ((roundHalfAway ((r : ℚ) / 1000) : Int) : ℚ) := by
    exact_mod_cast Int.toNat_of_nonneg hC0
  refine ⟨by rw [hread]; rfl, ?_, ?_⟩
  · rw [hread]
    show ((roundHalfAway
          ((((roundHalfAway ((r : ℚ) / 1000)).toNat : ℕ) : ℚ) * (9 / 5) + 32))
        % 65536).toNat = _
    rw [hcast]
    have h0 : (0 : ℚ)
        ≤ ((roundHalfAway ((r : ℚ) / 1000) : Int) : ℚ) * (9 / 5) + 32 := by
      nlinarith
    have hle : ((roundHalfAway ((r : ℚ) / 1000) : Int) : ℚ) * (9 / 5) + 32
        ≤ ((64832 : Int) : ℚ) := by
      push_cast
      nlinarith
    rw [Int.emod_eq_of_lt (roundHalfAway_nonneg h0)
      (lt_of_le_of_lt (roundHalfAway_le h0 hle) (by norm_num))]
  · rw [hread]
    show ((roundHalfAway
          ((((roundHalfAway ((r : ℚ) / 1000)).toNat : ℕ) : ℚ) + 27315 / 100))
        % 65536).toNat = _
    rw [hcast]
    have h0 : (0 : ℚ)
        ≤ ((roundHalfAway ((r : ℚ) / 1000) : Int) : ℚ) + 27315 / 100 := by
      linarith
    have hle : ((roundHalfAway ((r : ℚ) / 1000) : Int) : ℚ) + 27315 / 100
        ≤ ((36274 : Int) : ℚ) := by
      push_cast
      linarith
    rw [Int.emod_eq_of_lt (roundHalfAway_nonneg h0)
      (lt_of_le_of_lt (roundHalfAway_le h0 hle) (by norm_num))]

theorem derived_units_chain_rounded_witness :
    (renderValues TEMPERATURE (readingsOfRaw TEMPERATURE 45123)).temperature_c
        = 45
      ∧ (renderValues TEMPERATURE (readingsOfRaw TEMPERATURE 45123)).temperature_f
          = 113
      ∧ (renderValues TEMPERATURE (readingsOfRaw TEMPERATURE 45123)).temperature_k
          = 318 := by
  obtain ⟨h1, h2, h3⟩ := derived_units_chain_rounded 45123 (by decide) (by decide)
  refine ⟨?_, ?_, ?_⟩
  · rw [h1]
    norm_num [roundHalfAway]
    decide
  · rw [h2]
    norm_num [roundHalfAway]
    decide
  · rw [h3]
    norm_num [roundHalfAway]
    decide

/-- C3 counterexample: a Warning tick (reading 65, thresholds 60/80)
leaves the tags at warning-only; the next tick classifies Critical
(reading 85) and adds the critical class without removing the warning
class, so both style tags are active at once — the leftover warning tag
is not cleared by a Critical tick. -/
theorem warning_class_survives_critical_tick :
    (update { warningThreshold := some 60, criticalThreshold := some 80 }
        TEMPERATURE 65000 ⟨false, false⟩).tags = ⟨false, true⟩
      ∧ (update { warningThreshold := some 60, criticalThreshold := some 80 }
          TEMPERATURE 85000 ⟨false, true⟩).tags = ⟨true, true⟩ := by
  have h65 : readingsOfRaw TEMPERATURE 65000 = 65 := by
    unfold readingsOfRaw convertReading
    norm_num [roundHalfAway]
    decide
  have h85 : readingsOfRaw TEMPERATURE 85000 = 85 := by
    unfold readingsOfRaw convertReading
    norm_num [roundHalfAway]
    decide
  constructor
  · rw [update_tags, h65]
    decide
  · rw [update_tags, h85]
    decide

/-- C3 amended: after a tick the style tags are: on a Critical tick the
critical class is set and the warning class keeps its previous state
(a leftover warning tag is not cleared); on a non-critical Warning tick
critical is cleared and warning set; on a Normal tick both are
cleared. -/
theorem style_tags_after_tick (cfg : Config) (st : SensorType) (raw : Int)
    (prev : StyleTags) :
    (update cfg st raw prev).tags
      = if isCritical cfg (readingsOfRaw st raw) then
          { critical := true, warning := prev.warning }
        else if isWarning cfg (readingsOfRaw st raw) then
          { critical := false, warning := true }
        else { critical := false, warning := false } := by
  rw [update_tags]
  unfold updateFormatAndStyle
  by_cases hc : isCritical cfg (readingsOfRaw st raw) = true
  · simp [hc]
  · simp only [Bool.not_eq_true] at hc
    by_cases hw : isWarning cfg (readingsOfRaw st raw) = true
    · simp [hc, hw]
    · simp only [Bool.not_eq_true] at hw
      simp [hc, hw]

/-- C4: the event box is shown exactly when the selected format is
non-empty — independent of the classification, since this holds for
every configuration, reading and previous tag state — and nothing is
rendered when it is hidden. -/
theorem empty_format_hides_surface (cfg : Config) (st : SensorType)
    (raw : Int) (prev : StyleTags) :
    ((update cfg st raw prev).shown = true
        ↔ (updateFormatAndStyle cfg (readingsOfRaw st raw) prev).1 ≠ "")
      ∧ ((update cfg st raw prev).rendered = none
        ↔ (update cfg st raw prev).shown = false) := by
  simp only [update]
  split <;> rename_i h <;> simp [h]

theorem empty_format_hides_surface_witness :
    (update { format := "" } TEMPERATURE 85000 ⟨false, false⟩).shown = false
      ∧ (update { format := "{temperatureC}" } TEMPERATURE 85000
          ⟨false, false⟩).shown = true := by
  constructor
  · have h := (empty_format_hides_surface { format := "" } TEMPERATURE 85000
      ⟨false, false⟩).1
    have hsel : (updateFormatAndStyle { format := "" }
        (readingsOfRaw TEMPERATURE 85000) ⟨false, false⟩).1 = "" := rfl
    rw [hsel] at h
    simpa using h
  · have h := (empty_format_hides_surface { format := "{temperatureC}" }
      TEMPERATURE 85000 ⟨false, false⟩).1
    have hsel : (updateFormatAndStyle { format := "{temperatureC}" }
        (readingsOfRaw TEMPERATURE 85000) ⟨false, false⟩).1
        = "{temperatureC}" := rfl
    rw [hsel] at h
    exact h.mpr (by decide)

/-- C7 counterexample: a tick whose source line is the non-numeric text
"abc" does not raise any error — strtol silently parses it as 0 and the
tick yields the reading 0. -/
theorem malformed_line_yields_zero :
    getReadings { openable := ["/t"], goodStream := ["/t"] } (fun _ => "abc")
        TEMPERATURE "/t" = Except.ok 0 := by
  have hs : strtol "abc" = 0 := by decide
  unfold getReadings
  rw [if_neg (by decide), if_neg (by decide)]
  simp [hs, convertReading_zero]

/-- C7 amended: once the per-tick open and stream-state checks pass,
the tick always produces a numeric Reading — strtol reports no error on
malformed content — and a line containing no digit at all yields the
reading 0. -/
theorem malformed_line_not_detected (fs : FS) (lineAt : String → String)
    (st : SensorType) (p : String)
    (h1 : fs.canOpen p = true) (h2 : fs.good p = true) :
    getReadings fs lineAt st p
        = Except.ok (convertReading st (strtol (lineAt p)))
      ∧ ((∀ c ∈ (lineAt p).data, c.isDigit = false)
        → getReadings fs lineAt st p = Except.ok 0) := by
  have e : getReadings fs lineAt st p
      = Except.ok (convertReading st (strtol (lineAt p))) := by
    unfold getReadings
    rw [if_neg (by simp [h1]), if_neg (by simp [h2])]
  refine ⟨e, fun hnd => ?_⟩
  rw [e, strtol_no_digits _ hnd, convertReading_zero]

theorem malformed_line_not_detected_witness :
    getReadings { openable := ["/t"], goodStream := ["/t"] }
        (fun _ => "sensor") FAN "/t" = Except.ok 0 :=
  (malformed_line_not_detected { openable := ["/t"], goodStream := ["/t"] }
    (fun _ => "sensor") FAN "/t" rfl rfl).2 (by decide)

end Waybar
